import Mathlib

/-!
Shallow embedding of the event-batching reporter of the `trains` repository:
`src/trains/backend_interface/metrics/reporter.py` (class `Reporter`) and
`src/trains/backend_interface/base.py` (`InterfaceBase._send`).

Python's dynamically typed values are embedded as a small closed universe
`Val` capturing exactly the type distinctions the code tests
(`isinstance(..., Iterable)`, `isinstance(..., dict)`, string checks).
Exceptions are embedded as an `Option PyError` component of each
operation's result: the pre-raise state is returned alongside the error,
mirroring the fact that a Python exception leaves the object's attributes
as they were at the raise point.  Calls to the external Metrics
collaborator's `write_events` are recorded in an explicit trace
(`List WriteCall`) so that theorems can speak about whether, and with
which arguments, a write was issued.
-/

namespace Trains

/-- Embedded universe of the Python runtime values the reporter inspects.
Strings, lists and dicts are iterable in Python; numbers and None are not. -/
inductive Val where
  | pynone
  | num (n : Int)
  | str (s : String)
  | listv (l : List Int)
  | dictv (d : List (String × String))
deriving Repr, DecidableEq

/-- Truth of Python's `isinstance(v, collections.Iterable)` on the embedded
universe: strings, lists and dicts are iterable, numbers and None are not. -/
def Val.isIterable : Val → Bool
  | .str _ => true
  | .listv _ => true
  | .dictv _ => true
  | .num _ => false
  | .pynone => false

/-- Truth of Python's `isinstance(v, six.string_types)`. -/
def Val.isStr : Val → Bool
  | .str _ => true
  | _ => false

/-- Truth of Python's `isinstance(v, dict)`. -/
def Val.isDict : Val → Bool
  | .dictv _ => true
  | _ => false

/-- Embedding of `json.dumps` restricted to the flat `Val` universe.  The
reporter only ever feeds its output to an event field, never inspects it. -/
def jsonDumps : Val → String
  | .pynone => "null"
  | .num n => toString n
  | .str s => "\"" ++ s ++ "\""
  | .listv l => "[" ++ String.intercalate ", " (l.map toString) ++ "]"
  | .dictv d =>
      "\x7b" ++
        String.intercalate ", "
          (d.map fun p => "\"" ++ p.1 ++ "\": \"" ++ p.2 ++ "\"") ++
      "\x7d"

/-- Python exceptions raised by the reporter: all are `ValueError`s,
distinguished by their message. -/
inductive PyError where
  | valueError (msg : String)
deriving Repr, DecidableEq

/-- Truthiness of an optional Python string: `None` and the empty string
are falsy, every other string is truthy. -/
def truthyOptStr : Option String → Bool
  | none => false
  | some s => s ≠ ""

/-- Embedding of Python's single-character `str.replace(old, new)`:
every occurrence of the character `old` is mapped to `new`. -/
def pyReplaceChar (s : String) (old new : Char) : String :=
  ⟨s.data.map fun c => if c = old then new else c⟩

/-- Embedding of Python's `str.rstrip(stripChar)` for a one-character
argument: all trailing occurrences of `stripChar` are removed. -/
def pyRstrip (s : String) (stripChar : Char) : String :=
  ⟨(s.data.reverse.dropWhile fun c => c = stripChar).reverse⟩

/-- Embedding of `Reporter._normalize_name` on a (non-None) string:
falsy (empty) input is returned unchanged, otherwise
`name.replace('$', '/').replace('.', '/')`. -/
def normalizeNameStr (name : String) : String :=
  if name = "" then name
  else pyReplaceChar (pyReplaceChar name '$' '/') '.' '/'

/-- Embedding of `Reporter._normalize_name` on an optional string, so that
the Python `None` input (also falsy, returned unchanged) is covered. -/
def normalizeName : Option String → Option String
  | none => none
  | some s => some (normalizeNameStr s)

/-- Events admitted to the reporter's buffer, one constructor per event
class of `.events` (`ScalarEvent`, `VectorEvent`, `PlotEvent`,
`ImageEventNoUpload`, `ImageEvent`), carrying the fields the reporter
passes to the corresponding constructor. -/
inductive Event where
  | scalar (metric variant : Option String) (value : Val) (iter : Int)
  | vector (metric variant : Option String) (values : Val) (iter : Int)
  | plot (metric variant : Option String) (plot_str : String) (iter : Int)
  | imageNoUpload (metric variant : Option String) (iter : Int) (src : Option String)
  | image (metric variant : Option String) (iter : Int)
      (image_file_history_size : Option Int)
      (image_data : Option Val) (upload_uri : Option String)
      (local_image_path : Option String)
deriving Repr, DecidableEq

/-- Record of one call to the Metrics collaborator's `write_events`: the
event batch handed over, the `async_enable` flag and the `storage_uri`
passed with it. -/
structure WriteCall where
  events : List Event
  async_enable : Bool
  storage_uri : Option String
deriving Repr, DecidableEq

/-- Behaviour of the external Metrics collaborator's `write_events`,
returning the response-or-async-handle of type `α`.  Theorems quantify
over it, so they hold for every possible outcome of the write (success,
failed response, async handle). -/
def WriteEventsFn (α : Type) : Type :=
  List Event → Bool → Option String → α

/-- State of one `Reporter` instance: the mutable attributes set in
`Reporter.__init__` plus the async-result set of the `AsyncManagerMixin`
capability.  `storage_key_pref` models the external collaborator value
`self._metrics.storage_key_prefix`, fixed per instance. -/
structure ReporterState (α : Type) where
  flush_threshold : Int
  events : List Event
  storage_uri : Option String
  async_enable : Bool
  async_results : List α
  storage_key_pref : String
deriving Repr, DecidableEq

namespace Reporter

/-- Embedding of `Reporter.__init__`: the buffer starts empty, the storage
URI unset, and `flush_threshold` and `async_enable` are stored verbatim
(no clamping happens at construction). -/
def init (α : Type) (flush_threshold : Int) (async_enable : Bool)
    (storage_key_pref : String) : ReporterState α :=
  { flush_threshold := flush_threshold
    events := []
    storage_uri := none
    async_enable := async_enable
    async_results := []
    storage_key_pref := storage_key_pref }

/-- Embedding of the `flush_threshold` property setter:
`self._flush_threshold = max(0, value)`. -/
def setFlushThreshold {α : Type} (value : Int) (s : ReporterState α) :
    ReporterState α :=
  { s with flush_threshold := max 0 value }

/-- Embedding of the `async_enable` property setter:
`self._async_enable = bool(value)`. -/
def setAsyncEnable {α : Type} (value : Bool) (s : ReporterState α) :
    ReporterState α :=
  { s with async_enable := value }

/-- Modelled from the spec: `AsyncManagerMixin._add_async_result` (the
async-result tracker lives in `trains/utilities/async_manager.py`, which
is not under `src/`); per spec section 4.2 the tracker accumulates handles
until drained. -/
def addAsyncResult {α : Type} (handle : α) (s : ReporterState α) :
    ReporterState α :=
  { s with async_results := s.async_results ++ [handle] }

/-- Modelled from the spec: `AsyncManagerMixin.get_num_results` is a pure
count of the tracked pending handles. -/
def getNumResults {α : Type} (s : ReporterState α) : Nat :=
  s.async_results.length

/-- Modelled from the spec: `AsyncManagerMixin.wait_for_results` blocks
until every tracked handle resolves, then clears the tracked set; in the
state embedding only the clearing is visible. -/
def waitForResults {α : Type} (s : ReporterState α) : ReporterState α :=
  { s with async_results := [] }

/-- The value stored by `Reporter._set_storage_uri`:
`'/'.join(x for x in (value.rstrip('/'), self._metrics.storage_key_prefix) if x)`. -/
def storageUriValue (value pref : String) : String :=
  String.intercalate "/" (([pyRstrip value '/', pref]).filter fun x => x ≠ "")

/-- Embedding of `Reporter._set_storage_uri`. -/
def setStorageUri {α : Type} (value : String) (s : ReporterState α) :
    ReporterState α :=
  { s with storage_uri := some (storageUriValue value s.storage_key_pref) }

/-- Embedding of the class attribute
`storage_uri = property(None, _set_storage_uri)`: the getter slot is
`None` (write-only property) and the setter slot is `_set_storage_uri`. -/
def storageUriProperty (α : Type) :
    Option (ReporterState α → Option String) ×
      (String → ReporterState α → ReporterState α) :=
  (none, setStorageUri)

/-- Embedding of `Reporter._write`: on an empty buffer, return without
doing anything; otherwise hand the whole buffer, the `async_enable` flag
and the current `storage_uri` to `write_events`, register the returned
handle when `async_enable` is set, and clear the buffer.  The returned
trace records the `write_events` call, if any. -/
def write {α : Type} (we : WriteEventsFn α) (s : ReporterState α) :
    ReporterState α × List WriteCall :=
  if s.events = [] then (s, [])
  else if s.async_enable then
    ({ addAsyncResult (we s.events s.async_enable s.storage_uri) s with events := [] },
     [{ events := s.events
        async_enable := s.async_enable
        storage_uri := s.storage_uri }])
  else
    ({ s with events := [] },
     [{ events := s.events
        async_enable := s.async_enable
        storage_uri := s.storage_uri }])

/-- Embedding of `Reporter._report`: append the event to the buffer, then
invoke the internal write when the buffer length has reached the flush
threshold. -/
def report {α : Type} (we : WriteEventsFn α) (ev : Event)
    (s : ReporterState α) : ReporterState α × List WriteCall :=
  if ((s.events ++ [ev]).length : Int) ≥ s.flush_threshold then
    write we { s with events := s.events ++ [ev] }
  else ({ s with events := s.events ++ [ev] }, [])

/-- Embedding of `Reporter.flush`: invoke the internal write, then wait
for all pending async results when at least one is tracked. -/
def flush {α : Type} (we : WriteEventsFn α) (s : ReporterState α) :
    ReporterState α × List WriteCall :=
  if getNumResults (write we s).1 > 0 then
    (waitForResults (write we s).1, (write we s).2)
  else write we s

/-- Embedding of `Reporter.__exit__`: flush exactly when no exception type
is being propagated out of the scope (`if not exc_type: self.flush()`). -/
def exitScope {α : Type} (we : WriteEventsFn α) (exc_type : Option PyError)
    (s : ReporterState α) : ReporterState α × List WriteCall :=
  match exc_type with
  | none => flush we s
  | some _ => (s, [])

/-- Embedding of `Reporter.report_scalar`. -/
def report_scalar {α : Type} (we : WriteEventsFn α)
    (title series : Option String) (value : Val) (iter : Int)
    (s : ReporterState α) : ReporterState α × List WriteCall :=
  report we (.scalar (normalizeName title) (normalizeName series) value iter) s

/-- Embedding of `Reporter.report_vector`: raise a `ValueError` when the
values argument is not iterable, before any event is built, otherwise
buffer a `VectorEvent`. -/
def report_vector {α : Type} (we : WriteEventsFn α)
    (title series : Option String) (values : Val) (iter : Int)
    (s : ReporterState α) :
    ReporterState α × List WriteCall × Option PyError :=
  if ¬ values.isIterable then
    (s, [], some (.valueError "values: expected an iterable"))
  else
    ((report we (.vector (normalizeName title) (normalizeName series) values iter) s).1,
     (report we (.vector (normalizeName title) (normalizeName series) values iter) s).2,
     none)

/-- Embedding of `Reporter.report_plot`: a dict payload is serialized with
`json.dumps`, a string payload is used as is, anything else raises a
`ValueError` before any event is built. -/
def report_plot {α : Type} (we : WriteEventsFn α)
    (title series : Option String) (plot : Val) (iter : Int)
    (s : ReporterState α) :
    ReporterState α × List WriteCall × Option PyError :=
  if plot.isDict then
    ((report we (.plot (normalizeName title) (normalizeName series) (jsonDumps plot) iter) s).1,
     (report we (.plot (normalizeName title) (normalizeName series) (jsonDumps plot) iter) s).2,
     none)
  else if ¬ plot.isStr then
    (s, [], some (.valueError "Plot should be a string or a dict"))
  else
    ((report we (.plot (normalizeName title) (normalizeName series)
        (match plot with | .str str => str | _ => "") iter) s).1,
     (report we (.plot (normalizeName title) (normalizeName series)
        (match plot with | .str str => str | _ => "") iter) s).2,
     none)

/-- Embedding of `Reporter.report_image` (no validation, no upload). -/
def report_image {α : Type} (we : WriteEventsFn α)
    (title series : Option String) (src : Option String) (iter : Int)
    (s : ReporterState α) : ReporterState α × List WriteCall :=
  report we
    (.imageNoUpload (normalizeName title) (normalizeName series) iter src) s

/-- Embedding of `Reporter.report_image_and_upload`: first the
upload-configuration check (`if not self._storage_uri and not upload_uri`),
then the exactly-one-of-path-and-matrix check, both before any event is
built; on success an `ImageEvent` is buffered. -/
def report_image_and_upload {α : Type} (we : WriteEventsFn α)
    (title series : Option String) (iter : Int)
    (path : Option String) (matrix : Option Val)
    (upload_uri : Option String) (max_image_history : Option Int)
    (s : ReporterState α) :
    ReporterState α × List WriteCall × Option PyError :=
  if ¬ truthyOptStr s.storage_uri ∧ ¬ truthyOptStr upload_uri then
    (s, [], some (.valueError "Upload configuration is required (use setup_upload())"))
  else if ((if path.isSome then 1 else 0) + (if matrix.isSome then 1 else 0) : Nat) ≠ 1 then
    (s, [], some (.valueError "Expected only one of [filename, matrix]"))
  else
    ((report we (.image (normalizeName title) (normalizeName series) iter
        max_image_history matrix upload_uri path) s).1,
     (report we (.image (normalizeName title) (normalizeName series) iter
        max_image_history matrix upload_uri path) s).2,
     none)

end Reporter

/-! Embedding of `InterfaceBase._send` from
`src/trains/backend_interface/base.py`: an unbounded `while True` loop
whose body issues the request through the transport session and
classifies the outcome.  The body is embedded as `sendStep`, one loop
iteration; the loop itself as the fuelled `sendLoop`, which re-issues the
request for as long as iterations end in a retry. -/

/-- Well-formed transport response; `result_code` embeds
`res.meta.result_code`. -/
structure Response where
  result_code : Int
deriving Repr, DecidableEq

/-- Outcome of one `session.send` call: a well-formed response, a
`requests.exceptions.BaseHTTPError` (the only exception class the loop
body catches), or any other exception (uncaught by the loop body). -/
inductive TransportOutcome where
  | response (res : Response)
  | httpError (msg : String)
  | otherException (msg : String)
deriving Repr, DecidableEq

/-- How one iteration of the `while True` loop in `_send` ends. -/
inductive StepResult where
  /-- The iteration executes `return res`. -/
  | ret (res : Response)
  /-- The iteration executes `raise SendError(res, error_msg)`. -/
  | sendErrorRaised (res : Response) (msg : String)
  /-- The iteration falls through to the bottom of the loop body and the
  loop re-issues the request. -/
  | retry
  /-- An exception not raised by the classification itself propagates out
  of the loop (an uncaught transport exception, or the `AttributeError`
  from calling `log.error` on `log=None` in the except block). -/
  | uncaught (msg : String)
deriving Repr, DecidableEq

/-- Outcome of one loop iteration together with whether `log.error` was
invoked during it. -/
structure StepOut where
  result : StepResult
  error_logged : Bool
deriving Repr, DecidableEq

/-- The diagnostic message built for a failing response, distinguishing
batched from single requests (`req.to_dict()` is summarized by the
`req_repr` string). -/
def sendErrorMsg (batched : Bool) (req_repr : String) (res : Response) : String :=
  if batched then "Action failed " ++ toString res.result_code
  else "Action failed " ++ toString res.result_code ++ " (" ++ req_repr ++ ")"

/-- Embedding of one iteration of the `while True` body of
`InterfaceBase._send`.  `log_present` embeds whether a logger was passed
(`log` is `None` otherwise); in the `except` block the code calls
`log.error(...)` without a `None` guard, so a caught transport exception
with `log=None` raises `AttributeError` instead of retrying. -/
def sendStep (batched ignore_errors raise_on_errors log_present : Bool)
    (req_repr : String) (t : TransportOutcome) : StepOut :=
  match t with
  | .response res =>
      if res.result_code = 200 ∨ res.result_code = 202 ∨ ignore_errors then
        { result := .ret res, error_logged := false }
      else
        let error_msg := sendErrorMsg batched req_repr res
        if res.result_code ≤ 500 then
          if raise_on_errors then
            { result := .sendErrorRaised res error_msg, error_logged := log_present }
          else
            { result := .ret res, error_logged := log_present }
        else
          { result := .retry, error_logged := log_present }
  | .httpError msg =>
      if log_present then { result := .retry, error_logged := true }
      else
        { result := .uncaught ("AttributeError: NoneType has no attribute error (" ++ msg ++ ")")
          error_logged := false }
  | .otherException msg =>
      { result := .uncaught msg, error_logged := false }

/-- Whether a loop iteration ended by falling through to the retry point. -/
def StepResult.isRetry : StepResult → Bool
  | .retry => true
  | _ => false

/-- Whether a loop iteration terminated the dispatch by returning the
response or raising `SendError` (the two terminations the claim about
the send loop allows for a well-formed response). -/
def StepResult.terminatesWithResponse : StepResult → Bool
  | .ret _ => true
  | .sendErrorRaised _ _ => true
  | _ => false

/-- Fuelled embedding of the whole `while True` loop: the transport's
behaviour across successive attempts is a stream `ts`, attempt `i` seeing
`ts i`.  A retry consumes one unit of fuel and re-issues the request;
`none` means the fuel ran out with the loop still retrying. -/
def sendLoop (batched ignore_errors raise_on_errors log_present : Bool)
    (req_repr : String) (ts : Nat → TransportOutcome) :
    Nat → Nat → Option StepResult
  | 0, _ => none
  | fuel + 1, i =>
      let out := sendStep batched ignore_errors raise_on_errors log_present req_repr (ts i)
      if out.result.isRetry then
        sendLoop batched ignore_errors raise_on_errors log_present req_repr ts fuel (i + 1)
      else some out.result

/-! Auxiliary definitions used by the theorems below. -/

/-- Folding a whole sequence of `_report` calls over a reporter state,
accumulating the `write_events` calls issued along the way. -/
def reportSeq {α : Type} (we : WriteEventsFn α) (evs : List Event)
    (s : ReporterState α) : ReporterState α × List WriteCall :=
  evs.foldl (fun p ev =>
    let q := Reporter.report we ev p.1
    (q.1, p.2 ++ q.2)) (s, [])

/-- Removal of all trailing occurrences of a character, written by direct
recursion on the string's characters; used as the spec-side reading of
"with trailing '/' characters stripped" in the storage-URI claim. -/
def dropTrailing (c : Char) : List Char → List Char
  | [] => []
  | x :: xs =>
      let rest := dropTrailing c xs
      if rest = [] ∧ x = c then [] else x :: rest

/-- Joining path components with '/', written by direct recursion; used as
the spec-side reading of "joined by '/'" in the storage-URI claim. -/
def specJoin : List String → String
  | [] => ""
  | [x] => x
  | x :: xs => x ++ "/" ++ specJoin xs

/-- Spec-side description of the upload destination stored by the
storage-URI setter: the given value with trailing '/' characters
stripped, joined by '/' with the storage key prefix, with empty
components omitted. -/
def specStoredStorageUri (value pref : String) : String :=
  specJoin (([⟨dropTrailing '/' value.data⟩, pref] : List String).filter fun x => x ≠ "")

/-- Sample `write_events` behaviour used by concrete witnesses: the
returned handle is the size of the batch. -/
def weLen : WriteEventsFn Nat := fun evs _ _ => evs.length

/-! Theorems. -/

/-- Character-level description of `_normalize_name` on strings: the two
successive single-character replacements amount to one simultaneous map. -/
theorem normalizeNameStr_data (s : String) :
    (normalizeNameStr s).data =
      s.data.map fun c => if c = '$' ∨ c = '.' then '/' else c := by
  by_cases h : s = ""
  · subst h; rfl
  · simp only [normalizeNameStr, if_neg h, pyReplaceChar, List.map_map]
    have hfun :
        ((fun c => if c = '.' then '/' else c) ∘ fun c => if c = '$' then '/' else c) =
          fun c => if c = '$' ∨ c = '.' then '/' else c := by
      funext c
      by_cases h1 : c = '$' <;> by_cases h2 : c = '.' <;>
        simp [Function.comp, h1, h2]
    rw [hfun]

/-- C9: `_normalize_name` replaces every occurrence of '$' and every
occurrence of '.' in its input with '/', leaving all other characters in
place, sends "a.b$c" to "a/b/c", and returns falsy input (the empty
string, or the Python `None`) unchanged. -/
theorem c9_normalize_name_replaces_reserved_chars :
    (∀ s : String, (normalizeNameStr s).data =
        s.data.map fun c => if c = '$' ∨ c = '.' then '/' else c) ∧
    normalizeNameStr "a.b$c" = "a/b/c" ∧
    normalizeNameStr "" = "" ∧
    normalizeName none = none ∧
    (∀ s : String, normalizeName (some s) = some (normalizeNameStr s)) :=
  ⟨normalizeNameStr_data, by decide, rfl, rfl, fun _ => rfl⟩

/-- Stripping trailing occurrences by direct recursion agrees with the
reverse-dropWhile-reverse computation of `pyRstrip`. -/
theorem pyRstrip_eq_dropTrailing (c : Char) (s : String) :
    pyRstrip s c = ⟨dropTrailing c s.data⟩ := by
  suffices h : ∀ l : List Char,
      (l.reverse.dropWhile fun x => x = c).reverse = dropTrailing c l by
    simp [pyRstrip, h s.data]
  intro l
  induction l with
  | nil => rfl
  | cons x xs ih =>
      simp only [List.reverse_cons, List.dropWhile_append, dropTrailing, ← ih]
      by_cases h : (xs.reverse.dropWhile fun y => y = c) = []
      · by_cases hx : x = c <;> simp [h, hx, List.dropWhile]
      · have hne : ((xs.reverse.dropWhile fun y => y = c).isEmpty) = false := by
          simp [List.isEmpty_iff, h]
        have hrev : ((xs.reverse.dropWhile fun y => y = c).reverse) ≠ [] := by
          simpa using h
        simp [hne, hrev]

/-- The '/'-join with empty components omitted agrees with the spec-side
recursive join, for the two-component lists the setter builds. -/
theorem storageUriValue_eq_spec (value pref : String) :
    Reporter.storageUriValue value pref = specStoredStorageUri value pref := by
  simp only [Reporter.storageUriValue, specStoredStorageUri, ← pyRstrip_eq_dropTrailing]
  by_cases h1 : pyRstrip value '/' = "" <;> by_cases h2 : pref = "" <;>
    simp [h1, h2, specJoin, String.intercalate, String.intercalate.go]

/-- C10: the storage-URI setter does not store the given value verbatim:
the stored destination is the value with trailing '/' stripped, joined by
'/' with the Metrics collaborator's storage key prefix, empty components
omitted; and the `storage_uri` property is write-only (its getter slot is
`None`). -/
theorem c10_storage_uri_setter_joins_prefix :
    (∀ (α : Type) (v : String) (s : ReporterState α),
        (Reporter.setStorageUri v s).storage_uri =
          some (specStoredStorageUri v s.storage_key_pref)) ∧
    (Reporter.storageUriProperty Nat).1 = none ∧
    (Reporter.setStorageUri "s3://bucket/"
        (Reporter.init Nat 10 false "task-key")).storage_uri ≠
      some "s3://bucket/" := by
  refine ⟨fun α v s => ?_, rfl, by decide⟩
  simp [Reporter.setStorageUri, storageUriValue_eq_spec]

/-- C5: classification of a well-formed response in the dispatcher's send
loop: a 200 or 202 result code, or ignore_errors, returns the response at
once without logging an error; otherwise, for a result code ≤ 500, the
loop raises SendError carrying the response and a diagnostic message when
raise_on_errors is set, and returns the failed response unmodified when
it is not. -/
theorem c5_send_response_classification
    (batched ig ro lp : Bool) (r : String) (res : Response) :
    (res.result_code = 200 ∨ res.result_code = 202 ∨ ig = true →
      sendStep batched ig ro lp r (.response res) =
        { result := .ret res, error_logged := false }) ∧
    (¬(res.result_code = 200 ∨ res.result_code = 202 ∨ ig = true) →
      res.result_code ≤ 500 →
      (ro = true →
        sendStep batched ig ro lp r (.response res) =
          { result := .sendErrorRaised res (sendErrorMsg batched r res),
            error_logged := lp }) ∧
      (ro = false →
        sendStep batched ig ro lp r (.response res) =
          { result := .ret res, error_logged := lp })) := by
  constructor
  · intro h
    simp [sendStep, h]
  · intro h hle
    constructor <;> intro hro <;> subst hro <;> simp [sendStep, h, hle]

/-- Concrete instantiation of the response classification at result codes
404 and 200, for both values of raise_on_errors. -/
theorem c5_send_response_classification_witness :
    sendStep false false true true "req" (.response ⟨404⟩) =
      { result := .sendErrorRaised ⟨404⟩ (sendErrorMsg false "req" ⟨404⟩),
        error_logged := true } ∧
    sendStep false false false true "req" (.response ⟨404⟩) =
      { result := .ret ⟨404⟩, error_logged := true } ∧
    sendStep false false true true "req" (.response ⟨200⟩) =
      { result := .ret ⟨200⟩, error_logged := false } :=
  ⟨((c5_send_response_classification false false true true "req" ⟨404⟩).2
      (by decide) (by decide)).1 rfl,
   ((c5_send_response_classification false false false true "req" ⟨404⟩).2
      (by decide) (by decide)).2 rfl,
   (c5_send_response_classification false false true true "req" ⟨200⟩).1
      (by decide)⟩

/-- C3 counterexample: a well-formed response with result code 501 (flags
at their defaults) makes the loop body fall through to the retry point,
so the dispatcher loops back and resends instead of returning the
response or raising SendError; against a transport that keeps answering
501 the fuelled loop exhausts any amount of fuel. -/
theorem c3_counterexample_501_retries :
    (sendStep false false true true "req" (.response ⟨501⟩)).result = .retry ∧
    StepResult.terminatesWithResponse
      (sendStep false false true true "req" (.response ⟨501⟩)).result = false ∧
    sendLoop false false true true "req" (fun _ => .response ⟨501⟩) 5 0 = none := by
  decide

/-- C3 amended: in the dispatcher's send loop, a well-formed response
causes a retry if and only if its result code is not 200 or 202,
ignore_errors is not set, and the code exceeds 500; it terminates the
iteration (returning the response or raising SendError) if and only if
the code is 200 or 202, or ignore_errors is set, or the code is ≤ 500.
A caught transport-level exception also retries whenever a logger is
present. -/
theorem c3_amended_retry_cases
    (batched ig ro lp : Bool) (r m : String) (res : Response) :
    ((sendStep batched ig ro lp r (.response res)).result.isRetry = true ↔
      ¬(res.result_code = 200 ∨ res.result_code = 202 ∨ ig = true) ∧
        500 < res.result_code) ∧
    ((sendStep batched ig ro lp r (.response res)).result.terminatesWithResponse = true ↔
      (res.result_code = 200 ∨ res.result_code = 202 ∨ ig = true) ∨
        res.result_code ≤ 500) ∧
    (sendStep batched ig ro true r (.httpError m)).result.isRetry = true := by
  refine ⟨?_, ?_, by simp [sendStep, StepResult.isRetry]⟩
  · by_cases h : res.result_code = 200 ∨ res.result_code = 202 ∨ ig = true
    · simp [sendStep, h, StepResult.isRetry]
    · by_cases hle : res.result_code ≤ 500
      · cases ro <;>
          simp [sendStep, h, hle, StepResult.isRetry]
      · simp [sendStep, h, hle, StepResult.isRetry]
        try omega
  · by_cases h : res.result_code = 200 ∨ res.result_code = 202 ∨ ig = true
    · simp [sendStep, h, StepResult.terminatesWithResponse]
    · by_cases hle : res.result_code ≤ 500
      · cases ro <;>
          simp [sendStep, h, hle, StepResult.terminatesWithResponse]
      · simp [sendStep, h, hle, StepResult.terminatesWithResponse]
        try omega

/-- Concrete instantiation of the retry classification: code 503 retries,
code 404 terminates, a logged transport exception retries. -/
theorem c3_amended_retry_cases_witness :
    (sendStep false false true true "req" (.response ⟨503⟩)).result.isRetry = true ∧
    (sendStep false false true true "req" (.response ⟨404⟩)).result.terminatesWithResponse = true ∧
    (sendStep false false true true "req" (.httpError "connection fault")).result.isRetry = true :=
  ⟨(c3_amended_retry_cases false false true true "req" "m" ⟨503⟩).1.mpr
      (by decide),
   (c3_amended_retry_cases false false true true "req" "m" ⟨404⟩).2.1.mpr
      (by decide),
   (c3_amended_retry_cases false false true true "req" "connection fault" ⟨0⟩).2.2⟩

/-- C8 counterexample: `Reporter.__init__` stores the given
flush_threshold verbatim (no clamping), so constructing a reporter with
flush_threshold = -5 yields a reachable state whose flush_threshold is
negative. -/
theorem c8_counterexample_negative_init_threshold :
    (Reporter.init Nat (-5) false "").flush_threshold = -5 ∧
    ¬ 0 ≤ (Reporter.init Nat (-5) false "").flush_threshold := by
  decide

/-- Preservation of flush_threshold by the internal write. -/
theorem write_flush_threshold {α : Type} (we : WriteEventsFn α)
    (s : ReporterState α) :
    (Reporter.write we s).1.flush_threshold = s.flush_threshold := by
  unfold Reporter.write
  split
  · rfl
  · split <;> rfl

/-- Preservation of flush_threshold by `_report`. -/
theorem report_flush_threshold {α : Type} (we : WriteEventsFn α) (ev : Event)
    (s : ReporterState α) :
    (Reporter.report we ev s).1.flush_threshold = s.flush_threshold := by
  unfold Reporter.report
  split
  · rw [write_flush_threshold]
  · rfl

/-- C8 amended: the flush_threshold setter maps every value v to
max(0, v), hence always yields a non-negative threshold, and every other
reporter operation leaves flush_threshold unchanged; construction,
however, stores its argument verbatim, so flush_threshold ≥ 0 holds in
every reachable state provided the constructor argument was
non-negative. -/
theorem c8_amended_threshold_clamped_only_by_setter
    (α : Type) (we : WriteEventsFn α) :
    (∀ (v : Int) (s : ReporterState α),
        (Reporter.setFlushThreshold v s).flush_threshold = max 0 v ∧
        0 ≤ (Reporter.setFlushThreshold v s).flush_threshold) ∧
    (∀ (t : Int) (a : Bool) (p : String),
        (Reporter.init α t a p).flush_threshold = t) ∧
    (∀ ev s, (Reporter.report we ev s).1.flush_threshold = s.flush_threshold) ∧
    (∀ s, (Reporter.write we s).1.flush_threshold = s.flush_threshold) ∧
    (∀ s, (Reporter.flush we s).1.flush_threshold = s.flush_threshold) ∧
    (∀ e s, (Reporter.exitScope we e s).1.flush_threshold = s.flush_threshold) ∧
    (∀ (b : Bool) (s : ReporterState α),
        (Reporter.setAsyncEnable b s).flush_threshold = s.flush_threshold) ∧
    (∀ (v : String) (s : ReporterState α),
        (Reporter.setStorageUri v s).flush_threshold = s.flush_threshold) ∧
    (∀ t se v i s,
        (Reporter.report_scalar we t se v i s).1.flush_threshold = s.flush_threshold) ∧
    (∀ t se v i s,
        (Reporter.report_vector we t se v i s).1.flush_threshold = s.flush_threshold) ∧
    (∀ t se pl i s,
        (Reporter.report_plot we t se pl i s).1.flush_threshold = s.flush_threshold) ∧
    (∀ t se src i s,
        (Reporter.report_image we t se src i s).1.flush_threshold = s.flush_threshold) ∧
    (∀ t se i pa ma u mih s,
        (Reporter.report_image_and_upload we t se i pa ma u mih s).1.flush_threshold =
          s.flush_threshold) := by
  have hflush : ∀ s : ReporterState α,
      (Reporter.flush we s).1.flush_threshold = s.flush_threshold := by
    intro s
    unfold Reporter.flush
    split
    · simp [Reporter.waitForResults, write_flush_threshold]
    · exact write_flush_threshold we s
  refine ⟨fun v s => ⟨rfl, le_max_left 0 v⟩, fun t a p => rfl,
    report_flush_threshold we, write_flush_threshold we, hflush,
    ?_, ?_, ?_, ?_, ?_, ?_, ?_, ?_⟩
  · intro e s
    cases e with
    | none => exact hflush s
    | some _ => rfl
  · intro b s; rfl
  · intro v s; rfl
  · intro t se v i s; exact report_flush_threshold we _ s
  · intro t se v i s
    unfold Reporter.report_vector
    split
    · rfl
    · simp [report_flush_threshold]
  · intro t se pl i s
    unfold Reporter.report_plot
    split
    · simp [report_flush_threshold]
    · split
      · rfl
      · simp [report_flush_threshold]
  · intro t se src i s; exact report_flush_threshold we _ s
  · intro t se i pa ma u mih s
    unfold Reporter.report_image_and_upload
    by_cases h1 : truthyOptStr s.storage_uri = false ∧ truthyOptStr u = false
    · simp [h1]
    · by_cases h2 :
        ((if pa.isSome then 1 else 0) + (if ma.isSome then 1 else 0) : Nat) = 1
      · simp [h1, h2, report_flush_threshold]
      · simp [h1, h2]

/-- The internal write on an empty buffer returns the state untouched and
issues no `write_events` call. -/
theorem write_empty {α : Type} (we : WriteEventsFn α) (s : ReporterState α)
    (h : s.events = []) : Reporter.write we s = (s, []) := by
  simp [Reporter.write, h]

/-- The internal write on a non-empty buffer: one `write_events` call
with the whole buffer, the flag and the URI; buffer empty afterwards;
handle registered exactly when async is enabled; all other fields kept. -/
theorem write_nonempty {α : Type} (we : WriteEventsFn α) (s : ReporterState α)
    (h : s.events ≠ []) :
    (Reporter.write we s).1.events = [] ∧
    (Reporter.write we s).2 =
      [{ events := s.events, async_enable := s.async_enable,
         storage_uri := s.storage_uri }] ∧
    (Reporter.write we s).1.async_results =
      (if s.async_enable then
         s.async_results ++ [we s.events s.async_enable s.storage_uri]
       else s.async_results) ∧
    (Reporter.write we s).1.storage_uri = s.storage_uri ∧
    (Reporter.write we s).1.async_enable = s.async_enable := by
  by_cases ha : s.async_enable <;>
    simp [Reporter.write, h, ha, Reporter.addAsyncResult]

/-- C2: the internal write on an empty buffer is a no-op (no call to
write_events); on a non-empty buffer it passes the entire buffered event
sequence with the current async_enable flag and storage_uri to
write_events, registers the returned handle with the async tracker
exactly when async_enable is true, and leaves the buffer empty afterwards
whatever the outcome of the write (the result returned by write_events is
universally quantified, so success and failed responses are covered
alike). -/
theorem c2_write_clears_buffer_unconditionally {α : Type}
    (we : WriteEventsFn α) (s : ReporterState α) :
    (s.events = [] → Reporter.write we s = (s, [])) ∧
    (s.events ≠ [] →
      (Reporter.write we s).2 =
        [{ events := s.events, async_enable := s.async_enable,
           storage_uri := s.storage_uri }] ∧
      (Reporter.write we s).1.events = [] ∧
      (Reporter.write we s).1.async_results =
        (if s.async_enable then
           s.async_results ++ [we s.events s.async_enable s.storage_uri]
         else s.async_results)) :=
  ⟨write_empty we s, fun h =>
    ⟨(write_nonempty we s h).2.1, (write_nonempty we s h).1,
     (write_nonempty we s h).2.2.1⟩⟩

/-- Concrete instantiation of the internal-write behaviour: the no-op on
a freshly constructed reporter, and the single write-and-clear on a
one-event buffer with async enabled. -/
theorem c2_write_clears_buffer_unconditionally_witness :
    Reporter.write weLen (Reporter.init Nat 10 false "p") =
      (Reporter.init Nat 10 false "p", []) ∧
    (Reporter.write weLen
        ({ flush_threshold := 10, events := [Event.scalar none none (Val.num 1) 0],
           storage_uri := some "s3://x", async_enable := true,
           async_results := [7], storage_key_pref := "p" } : ReporterState Nat)).2 =
      [{ events := [Event.scalar none none (Val.num 1) 0],
         async_enable := true, storage_uri := some "s3://x" }] ∧
    (Reporter.write weLen
        ({ flush_threshold := 10, events := [Event.scalar none none (Val.num 1) 0],
           storage_uri := some "s3://x", async_enable := true,
           async_results := [7], storage_key_pref := "p" } : ReporterState Nat)).1.events =
      [] :=
  ⟨(c2_write_clears_buffer_unconditionally weLen (Reporter.init Nat 10 false "p")).1 rfl,
   ((c2_write_clears_buffer_unconditionally weLen _).2 (by decide)).1,
   ((c2_write_clears_buffer_unconditionally weLen _).2 (by decide)).2.1⟩

/-- C4: exiting the reporter's scope flushes exactly when the exit is
normal: __exit__ with no exception equals one flush call, which is a
no-op on an already empty buffer, while __exit__ with an exception
performs no flush, issues no write, and leaves the whole reporter state,
buffer included, unchanged. -/
theorem c4_exit_flushes_iff_normal {α : Type} (we : WriteEventsFn α)
    (s : ReporterState α) (e : PyError) :
    Reporter.exitScope we none s = Reporter.flush we s ∧
    Reporter.exitScope we (some e) s = (s, []) ∧
    (s.events = [] →
      (Reporter.flush we s).2 = [] ∧ (Reporter.flush we s).1.events = []) := by
  refine ⟨rfl, rfl, fun h => ?_⟩
  have hw : Reporter.write we s = (s, []) := write_empty we s h
  unfold Reporter.flush
  rw [hw]
  split <;> simp [Reporter.waitForResults, h]

/-- Concrete instantiation of the scope-exit behaviour on a freshly
constructed reporter, for a normal exit and for an exceptional exit. -/
theorem c4_exit_flushes_iff_normal_witness :
    Reporter.exitScope weLen none (Reporter.init Nat 10 false "p") =
      Reporter.flush weLen (Reporter.init Nat 10 false "p") ∧
    Reporter.exitScope weLen (some (PyError.valueError "boom"))
        (Reporter.init Nat 10 false "p") =
      (Reporter.init Nat 10 false "p", []) ∧
    ((Reporter.flush weLen (Reporter.init Nat 10 false "p")).2 = [] ∧
      (Reporter.flush weLen (Reporter.init Nat 10 false "p")).1.events = []) :=
  ⟨(c4_exit_flushes_iff_normal weLen (Reporter.init Nat 10 false "p")
      (PyError.valueError "boom")).1,
   (c4_exit_flushes_iff_normal weLen (Reporter.init Nat 10 false "p")
      (PyError.valueError "boom")).2.1,
   (c4_exit_flushes_iff_normal weLen (Reporter.init Nat 10 false "p")
      (PyError.valueError "boom")).2.2 rfl⟩

/-- Below the threshold, a sequence of `_report` calls only appends: the
buffer accumulates the events in order and no write is issued. -/
theorem reportSeq_below_threshold {α : Type} (we : WriteEventsFn α)
    (evs : List Event) (s : ReporterState α)
    (h : ((s.events.length : Int) + evs.length) < s.flush_threshold) :
    reportSeq we evs s = ({ s with events := s.events ++ evs }, []) := by
  induction evs generalizing s with
  | nil => simp [reportSeq]
  | cons e rest ih =>
      simp only [List.length_cons] at h
      push_cast at h
      have hlt : ¬ (((s.events ++ [e]).length : Int) ≥ s.flush_threshold) := by
        simp only [List.length_append, List.length_cons, List.length_nil]
        push_cast
        omega
      have hrep : Reporter.report we e s =
          ({ s with events := s.events ++ [e] }, []) := by
        unfold Reporter.report
        rw [if_neg hlt]
      have hstep : reportSeq we (e :: rest) s =
          reportSeq we rest { s with events := s.events ++ [e] } := by
        simp [reportSeq, List.foldl_cons, hrep]
      rw [hstep]
      have h1 : ((({ s with events := s.events ++ [e] } :
            ReporterState α).events.length : Int) + rest.length) <
          ({ s with events := s.events ++ [e] } : ReporterState α).flush_threshold := by
        simp only [List.length_append, List.length_cons, List.length_nil]
        push_cast
        omega
      rw [ih _ h1]
      simp

/-- C1: after each `_report` appends its event, the internal write runs
if and only if the buffer length has reached the flush threshold; when it
runs the buffer is empty immediately after, and when it does not the
buffer has grown by exactly the one event.  Consequently a
below-threshold sequence of reports from an empty buffer accumulates
exactly the reported events with no write, and with flush_threshold = 0
every report writes immediately. -/
theorem c1_report_writes_iff_threshold_reached {α : Type}
    (we : WriteEventsFn α) (ev : Event) (s : ReporterState α) :
    ((Reporter.report we ev s).2 ≠ [] ↔
      ((s.events.length : Int) + 1 ≥ s.flush_threshold)) ∧
    (((s.events.length : Int) + 1 ≥ s.flush_threshold) →
      (Reporter.report we ev s).1.events = []) ∧
    (((s.events.length : Int) + 1 < s.flush_threshold) →
      (Reporter.report we ev s).1.events = s.events ++ [ev] ∧
      (Reporter.report we ev s).2 = []) ∧
    (s.flush_threshold = 0 →
      (Reporter.report we ev s).1.events = [] ∧
      (Reporter.report we ev s).2 ≠ []) ∧
    (∀ evs : List Event, s.events = [] →
      ((evs.length : Int) < s.flush_threshold) →
      reportSeq we evs s = ({ s with events := evs }, [])) := by
  have hcond : (((s.events ++ [ev]).length : Int) ≥ s.flush_threshold) ↔
      ((s.events.length : Int) + 1 ≥ s.flush_threshold) := by
    simp only [List.length_append, List.length_cons, List.length_nil]
    push_cast
    omega
  have hseq : ∀ evs : List Event, s.events = [] →
      ((evs.length : Int) < s.flush_threshold) →
      reportSeq we evs s = ({ s with events := evs }, []) := by
    intro evs h0 hlen
    have h1 : ((s.events.length : Int) + evs.length) < s.flush_threshold := by
      rw [h0]
      simpa using hlen
    have := reportSeq_below_threshold we evs s h1
    rw [this, h0]
    simp
  by_cases hc : ((s.events.length : Int) + 1 ≥ s.flush_threshold)
  · have hif : Reporter.report we ev s =
        Reporter.write we { s with events := s.events ++ [ev] } := by
      unfold Reporter.report
      rw [if_pos (hcond.mpr hc)]
    have hne : ({ s with events := s.events ++ [ev] } :
        ReporterState α).events ≠ [] := by simp
    have hw := write_nonempty we { s with events := s.events ++ [ev] } hne
    refine ⟨?_, fun _ => ?_, fun hlt => absurd hc (by omega), fun _ => ⟨?_, ?_⟩, hseq⟩
    · rw [hif]
      simp [hw.2.1, hc]
    · rw [hif]; exact hw.1
    · rw [hif]; exact hw.1
    · rw [hif]; simp [hw.2.1]
  · have hif : Reporter.report we ev s =
        ({ s with events := s.events ++ [ev] }, []) := by
      have hng : ¬ (((s.events ++ [ev]).length : Int) ≥ s.flush_threshold) := by
        intro hx
        exact hc (hcond.mp hx)
      unfold Reporter.report
      rw [if_neg hng]
    refine ⟨?_, fun hx => absurd hx hc, fun _ => ?_, fun h0 => ?_, hseq⟩
    · rw [hif]
      simp [hc]
    · rw [hif]
      exact ⟨rfl, rfl⟩
    · exfalso
      apply hc
      rw [h0]
      have : (0 : Int) ≤ (s.events.length : Int) := Int.ofNat_nonneg _
      omega

/-- Concrete instantiation of the threshold behaviour: with threshold 2 a
first report only buffers, a second report triggers the write and empties
the buffer, and with threshold 0 the very first report writes at once. -/
theorem c1_report_writes_iff_threshold_reached_witness :
    ((Reporter.report weLen (Event.scalar none none (Val.num 1) 0)
        (Reporter.init Nat 2 false "")).1.events =
      (Reporter.init Nat 2 false "").events ++ [Event.scalar none none (Val.num 1) 0] ∧
     (Reporter.report weLen (Event.scalar none none (Val.num 1) 0)
        (Reporter.init Nat 2 false "")).2 = []) ∧
    (Reporter.report weLen (Event.scalar none none (Val.num 2) 1)
        ({ flush_threshold := 2, events := [Event.scalar none none (Val.num 1) 0],
           storage_uri := none, async_enable := false, async_results := [],
           storage_key_pref := "" } : ReporterState Nat)).1.events = [] ∧
    ((Reporter.report weLen (Event.scalar none none (Val.num 1) 0)
        (Reporter.init Nat 0 false "")).1.events = [] ∧
     (Reporter.report weLen (Event.scalar none none (Val.num 1) 0)
        (Reporter.init Nat 0 false "")).2 ≠ []) :=
  ⟨(c1_report_writes_iff_threshold_reached weLen _ (Reporter.init Nat 2 false "")).2.2.1
      (by decide),
   (c1_report_writes_iff_threshold_reached weLen _ _).2.1 (by decide),
   (c1_report_writes_iff_threshold_reached weLen _ (Reporter.init Nat 0 false "")).2.2.2.1
      rfl⟩

/-- C6 counterexample: with both path and matrix supplied but no upload
destination configured, report_image_and_upload raises the configuration
failure, not the validation failure the claim's "if and only if"
requires for a both-supplied call: the configuration check runs first. -/
theorem c6_counterexample_config_error_shadows_validation :
    (Reporter.report_image_and_upload weLen none none 0 (some "img.png")
        (some (Val.listv [1, 2])) none none (Reporter.init Nat 10 false "")).2.2 =
      some (PyError.valueError "Upload configuration is required (use setup_upload())") ∧
    (some "img.png").isSome = true ∧
    (some (Val.listv [1, 2])).isSome = true ∧
    (Reporter.report_image_and_upload weLen none none 0 (some "img.png")
        (some (Val.listv [1, 2])) none none (Reporter.init Nat 10 false "")).2.2 ≠
      some (PyError.valueError "Expected only one of [filename, matrix]") := by
  decide

/-- C6 amended: the configuration check precedes the validation check.
With no truthy per-call upload_uri and no truthy session storage_uri the
call raises the configuration failure whatever path and matrix are;
otherwise a validation failure is raised if and only if zero or both of
path and matrix are supplied; with exactly one of them and an available
destination no error is raised and the ImageEvent is handed to the
buffer via `_report`. -/
theorem c6_amended_upload_validation_order {α : Type} (we : WriteEventsFn α)
    (t se : Option String) (i : Int) (pa : Option String) (ma : Option Val)
    (u : Option String) (mih : Option Int) (s : ReporterState α) :
    (truthyOptStr s.storage_uri = false ∧ truthyOptStr u = false →
      Reporter.report_image_and_upload we t se i pa ma u mih s =
        (s, [],
         some (PyError.valueError "Upload configuration is required (use setup_upload())"))) ∧
    ((truthyOptStr s.storage_uri = true ∨ truthyOptStr u = true) →
      ((if pa.isSome then 1 else 0) + (if ma.isSome then 1 else 0) : Nat) ≠ 1 →
      Reporter.report_image_and_upload we t se i pa ma u mih s =
        (s, [], some (PyError.valueError "Expected only one of [filename, matrix]"))) ∧
    ((truthyOptStr s.storage_uri = true ∨ truthyOptStr u = true) →
      ((if pa.isSome then 1 else 0) + (if ma.isSome then 1 else 0) : Nat) = 1 →
      Reporter.report_image_and_upload we t se i pa ma u mih s =
        ((Reporter.report we (Event.image (normalizeName t) (normalizeName se) i
            mih ma u pa) s).1,
         (Reporter.report we (Event.image (normalizeName t) (normalizeName se) i
            mih ma u pa) s).2,
         none)) := by
  unfold Reporter.report_image_and_upload
  refine ⟨fun h => ?_, fun h1 h2 => ?_, fun h1 h2 => ?_⟩
  · rw [if_pos ⟨by simp [h.1], by simp [h.2]⟩]
  · have hcfg : ¬ (¬ truthyOptStr s.storage_uri = true ∧ ¬ truthyOptStr u = true) := by
      rcases h1 with h1 | h1 <;> simp [h1]
    rw [if_neg hcfg, if_pos h2]
  · have hcfg : ¬ (¬ truthyOptStr s.storage_uri = true ∧ ¬ truthyOptStr u = true) := by
      rcases h1 with h1 | h1 <;> simp [h1]
    rw [if_neg hcfg, if_neg (not_not_intro h2)]

/-- Concrete instantiation of the amended upload/validation order: a call
with a per-call upload URI and only a path buffers the event without
error; the same call with both path and matrix raises the validation
failure; with no destination at all the configuration failure wins. -/
theorem c6_amended_upload_validation_order_witness :
    Reporter.report_image_and_upload weLen none none 0 (some "img.png") none
        (some "s3://x") none (Reporter.init Nat 10 false "") =
      ((Reporter.report weLen (Event.image (normalizeName none) (normalizeName none)
          0 none none (some "s3://x") (some "img.png"))
          (Reporter.init Nat 10 false "")).1,
       (Reporter.report weLen (Event.image (normalizeName none) (normalizeName none)
          0 none none (some "s3://x") (some "img.png"))
          (Reporter.init Nat 10 false "")).2,
       none) ∧
    Reporter.report_image_and_upload weLen none none 0 (some "img.png")
        (some (Val.listv [1])) (some "s3://x") none (Reporter.init Nat 10 false "") =
      (Reporter.init Nat 10 false "", [],
       some (PyError.valueError "Expected only one of [filename, matrix]")) ∧
    Reporter.report_image_and_upload weLen none none 0 (some "img.png") none
        none none (Reporter.init Nat 10 false "") =
      (Reporter.init Nat 10 false "", [],
       some (PyError.valueError "Upload configuration is required (use setup_upload())")) :=
  ⟨(c6_amended_upload_validation_order weLen none none 0 (some "img.png") none
      (some "s3://x") none (Reporter.init Nat 10 false "")).2.2
      (by decide) (by decide),
   (c6_amended_upload_validation_order weLen none none 0 (some "img.png")
      (some (Val.listv [1])) (some "s3://x") none (Reporter.init Nat 10 false "")).2.1
      (by decide) (by decide),
   (c6_amended_upload_validation_order weLen none none 0 (some "img.png") none
      none none (Reporter.init Nat 10 false "")).1 (by decide)⟩

/-- C7: every validation failure of the fallible reporting entry points
is raised before any event is appended: a failing report_vector or
report_plot returns the state and trace of a call that did nothing, a
failing report_image_and_upload leaves the state unchanged and issues no
write; and a successful call only admits a payload that passed the
corresponding check (iterable for vectors, dict-or-string for plots,
exactly one of path/matrix for image uploads). -/
theorem c7_validation_before_buffering {α : Type} (we : WriteEventsFn α)
    (t se : Option String) (i : Int) (s : ReporterState α) :
    (∀ values : Val,
      (Reporter.report_vector we t se values i s).2.2.isSome = true →
      Reporter.report_vector we t se values i s =
        (s, [], some (PyError.valueError "values: expected an iterable"))) ∧
    (∀ values : Val,
      (Reporter.report_vector we t se values i s).2.2 = none →
      values.isIterable = true) ∧
    (∀ plot : Val,
      (Reporter.report_plot we t se plot i s).2.2.isSome = true →
      Reporter.report_plot we t se plot i s =
        (s, [], some (PyError.valueError "Plot should be a string or a dict"))) ∧
    (∀ plot : Val,
      (Reporter.report_plot we t se plot i s).2.2 = none →
      (plot.isDict = true ∨ plot.isStr = true)) ∧
    (∀ (pa : Option String) (ma : Option Val) (u : Option String) (mih : Option Int),
      (Reporter.report_image_and_upload we t se i pa ma u mih s).2.2.isSome = true →
      (Reporter.report_image_and_upload we t se i pa ma u mih s).1 = s ∧
      (Reporter.report_image_and_upload we t se i pa ma u mih s).2.1 = []) ∧
    (∀ (pa : Option String) (ma : Option Val) (u : Option String) (mih : Option Int),
      (Reporter.report_image_and_upload we t se i pa ma u mih s).2.2 = none →
      ((if pa.isSome then 1 else 0) + (if ma.isSome then 1 else 0) : Nat) = 1) := by
  refine ⟨fun values hv => ?_, fun values hv => ?_, fun plot hp => ?_,
    fun plot hp => ?_, fun pa ma u mih him => ?_, fun pa ma u mih him => ?_⟩
  · cases values <;> simp_all [Reporter.report_vector, Val.isIterable]
  · cases values <;> simp_all [Reporter.report_vector, Val.isIterable]
  · cases plot <;> simp_all [Reporter.report_plot, Val.isDict, Val.isStr]
  · cases plot <;> simp_all [Reporter.report_plot, Val.isDict, Val.isStr]
  · by_cases h1 : ¬ truthyOptStr s.storage_uri = true ∧ ¬ truthyOptStr u = true
    · unfold Reporter.report_image_and_upload
      rw [if_pos h1]
      exact ⟨rfl, rfl⟩
    · by_cases h2 :
        ((if pa.isSome then 1 else 0) + (if ma.isSome then 1 else 0) : Nat) ≠ 1
      · unfold Reporter.report_image_and_upload
        rw [if_neg h1, if_pos h2]
        exact ⟨rfl, rfl⟩
      · exfalso
        unfold Reporter.report_image_and_upload at him
        rw [if_neg h1, if_neg h2] at him
        simp at him
  · by_cases h2 :
      ((if pa.isSome then 1 else 0) + (if ma.isSome then 1 else 0) : Nat) = 1
    · exact h2
    · exfalso
      unfold Reporter.report_image_and_upload at him
      by_cases h1 : ¬ truthyOptStr s.storage_uri = true ∧ ¬ truthyOptStr u = true
      · rw [if_pos h1] at him
        simp at him
      · rw [if_neg h1, if_pos h2] at him
        simp at him

/-- Concrete instantiation of validation-before-buffering: a vector
report with a numeric (non-iterable) payload and a plot report with a
numeric payload both fail leaving the fresh reporter untouched. -/
theorem c7_validation_before_buffering_witness :
    Reporter.report_vector weLen none none (Val.num 3) 0
        (Reporter.init Nat 10 false "") =
      (Reporter.init Nat 10 false "", [],
       some (PyError.valueError "values: expected an iterable")) ∧
    Reporter.report_plot weLen none none (Val.num 3) 0
        (Reporter.init Nat 10 false "") =
      (Reporter.init Nat 10 false "", [],
       some (PyError.valueError "Plot should be a string or a dict")) :=
  ⟨(c7_validation_before_buffering weLen none none 0
      (Reporter.init Nat 10 false "")).1 (Val.num 3) (by decide),
   (c7_validation_before_buffering weLen none none 0
      (Reporter.init Nat 10 false "")).2.2.1 (Val.num 3) (by decide)⟩

end Trains
